import Mathlib

/-!
Shallow embedding of `biostar/server/models.py`: the denormalized-counter
consistency engine of the Biostar Q&A platform.  Users, posts, questions,
answers and badges are identified by natural-number ids; the mutable
denormalized counters live in a single `State` record of id-indexed maps,
mirroring the rows the Django models mutate.  Each effect-bearing model's
`apply(dir)` method is translated into a pure state transformer.
-/

namespace Biostar

/-- Vote types, from `VOTE_UP, VOTE_DOWN, VOTE_ACCEPT = 0, 1, 2`. -/
inductive VoteType where
  | up
  | down
  | accept
deriving DecidableEq, Repr

/-- Badge tiers, from `BADGE_BRONZE, BADGE_SILVER, BADGE_GOLD = 0, 1, 2`. -/
inductive BadgeType where
  | bronze
  | silver
  | gold
deriving DecidableEq, Repr

/-- The dict `POST_SCORE = \x7b VOTE_UP:1, VOTE_DOWN:-1 \x7d`; `none` models a
missing key. -/
def POST_SCORE : VoteType → Option Int
  | .up => some 1
  | .down => some (-1)
  | .accept => none

/-- The dict `USER_REP = \x7b VOTE_UP:10, VOTE_DOWN:-2, VOTE_ACCEPT:15 \x7d`. -/
def USER_REP : VoteType → Option Int
  | .up => some 10
  | .down => some (-2)
  | .accept => some 15

/-- The dict `VOTER_REP = \x7b VOTE_DOWN: -1, VOTE_ACCEPT:2 \x7d`. -/
def VOTER_REP : VoteType → Option Int
  | .up => none
  | .down => some (-1)
  | .accept => some 2

/-- A `Vote` row: `author` and `post` are foreign keys (ids), `type` the vote
type. -/
structure Vote where
  author : Nat
  post : Nat
  type : VoteType
deriving DecidableEq, Repr

/-- An `Award` row: a badge being awarded to a user. -/
structure Award where
  badge : Nat
  user : Nat
deriving DecidableEq, Repr

/-- A `Comment` row: `parent` is the post whose `comment_count` it drives. -/
structure Comment where
  parent : Nat
deriving DecidableEq, Repr

/-- An `Answer` row: `question` is the question whose `answer_count` it
drives, `post` the wrapped content post. -/
structure Answer where
  question : Nat
  post : Nat
deriving DecidableEq, Repr

/-- The mutable denormalized counters and flags of the whole store, indexed
by row id, together with the (read-only during `apply`) foreign-key maps the
`apply` methods traverse: `postAuthor` for `self.post.author`, `answerOfPost`
for `self.post.answer`, `questionOfAnswer` for `answer.question`,
`badgeType`/`badgeUnique` for the `Badge` row fields. -/
structure State where
  profileScore : Nat → Int
  profileBronze : Nat → Int
  profileSilver : Nat → Int
  profileGold : Nat → Int
  postScore : Nat → Int
  postCommentCount : Nat → Int
  postRevisionCount : Nat → Int
  questionAnswerCount : Nat → Int
  questionAnswerAccepted : Nat → Bool
  answerAccepted : Nat → Bool
  badgeCount : Nat → Int
  postAuthor : Nat → Nat
  answerOfPost : Nat → Nat
  questionOfAnswer : Nat → Nat
  badgeType : Nat → BadgeType
  badgeUnique : Nat → Bool

/-- Pointwise additive update of an id-indexed counter map. -/
def updFun (f : Nat → Int) (k : Nat) (d : Int) : Nat → Int :=
  fun x => if x = k then f x + d else f x

/-- `Vote.score`: `POST_SCORE.get(self.type, 0)`. -/
def Vote.score (v : Vote) : Int := (POST_SCORE v.type).getD 0

/-- `Vote.reputation`: `USER_REP.get(self.type, 0)`. -/
def Vote.reputation (v : Vote) : Int := (USER_REP v.type).getD 0

/-- `Vote.voter_reputation`: `VOTER_REP.get(self.type, 0)`. -/
def Vote.voter_reputation (v : Vote) : Int := (VOTER_REP v.type).getD 0

/-- The `if self.reputation():` block of `Vote.apply`: add
`dir * reputation` to the post author's profile score when the reputation
delta is truthy (nonzero). -/
def Vote.applyRep (v : Vote) (dir : Int) (s : State) : State :=
  if v.reputation = 0 then s
  else { s with profileScore := updFun s.profileScore (s.postAuthor v.post) (dir * v.reputation) }

/-- The `if self.voter_reputation():` block of `Vote.apply`. -/
def Vote.applyVoterRep (v : Vote) (dir : Int) (s : State) : State :=
  if v.voter_reputation = 0 then s
  else { s with profileScore := updFun s.profileScore v.author (dir * v.voter_reputation) }

/-- The `if self.score():` block of `Vote.apply`. -/
def Vote.applyScore (v : Vote) (dir : Int) (s : State) : State :=
  if v.score = 0 then s
  else { s with postScore := updFun s.postScore v.post (dir * v.score) }

/-- The `if self.type == VOTE_ACCEPT:` block of `Vote.apply`: sets the
answer's `accepted` flag and its question's `answer_accepted` flag to `true`
when `dir == 1` and to `false` otherwise. -/
def Vote.applyAccept (v : Vote) (dir : Int) (s : State) : State :=
  if v.type = VoteType.accept then
    let answer := s.answerOfPost v.post
    let question := s.questionOfAnswer answer
    let acc := if dir = 1 then true else false
    { s with
      answerAccepted := fun a => if a = answer then acc else s.answerAccepted a,
      questionAnswerAccepted := fun q => if q = question then acc else s.questionAnswerAccepted q }
  else s

/-- `Vote.apply(dir)`: the four blocks run in source order. -/
def Vote.apply (v : Vote) (dir : Int) (s : State) : State :=
  v.applyAccept dir (v.applyScore dir (v.applyVoterRep dir (v.applyRep dir s)))

/-- `Award.apply(dir)`: bumps the matching tier counter on the recipient's
profile (three independent `if` tests in the source) and then always bumps
`badge.count`. -/
def Award.apply (a : Award) (dir : Int) (s : State) : State :=
  let t := s.badgeType a.badge
  let s := if t = BadgeType.bronze then
      { s with profileBronze := updFun s.profileBronze a.user dir } else s
  let s := if t = BadgeType.silver then
      { s with profileSilver := updFun s.profileSilver a.user dir } else s
  let s := if t = BadgeType.gold then
      { s with profileGold := updFun s.profileGold a.user dir } else s
  { s with badgeCount := updFun s.badgeCount a.badge dir }

/-- `Comment.apply(dir)`: updates the parent post's `comment_count`. -/
def Comment.apply (c : Comment) (dir : Int) (s : State) : State :=
  { s with postCommentCount := updFun s.postCommentCount c.parent dir }

/-- `Answer.apply(dir)`: updates the question's `answer_count`. -/
def Answer.apply (a : Answer) (dir : Int) (s : State) : State :=
  { s with questionAnswerCount := updFun s.questionAnswerCount a.question dir }

/-- A `PostRevision` row: an immutable snapshot of a post's content, tag
string, title, author and date; `post` is the foreign key to the post whose
history holds it. -/
structure PostRevision where
  post : Nat
  content : String
  tag_string : String
  title : String
  author : Nat
  date : Nat
deriving DecidableEq, Repr

/-- `PostRevision.apply(dir)`: updates the post's `revision_count`. -/
def PostRevision.apply (r : PostRevision) (dir : Int) (s : State) : State :=
  { s with postRevisionCount := updFun s.postRevisionCount r.post dir }

/-! ### Signal wiring

`post_save` and `post_delete` receivers for the effect-bearing models.  A
Django signal calls each connected receiver with keyword arguments only;
`post_save` supplies `sender`, `instance`, `created`, `raw` (and `using`),
while `post_delete` supplies only `sender`, `instance` (and `using`).  We
model the arguments a dispatch supplies beyond `sender`/`instance` as
optional values: a receiver whose required positional parameters are not
supplied raises a `TypeError` in Python, modelled as the `typeError`
outcome. -/

/-- The keyword arguments a signal dispatch supplies beyond
`sender`/`instance`: `post_save` supplies `created` and `raw`, `post_delete`
supplies neither. -/
structure SignalArgs where
  created : Option Bool
  raw : Option Bool
deriving DecidableEq, Repr

/-- Arguments supplied by a `post_save` dispatch. -/
def postSaveArgs (created raw : Bool) : SignalArgs := ⟨some created, some raw⟩

/-- Arguments supplied by a `post_delete` dispatch: no `created`, no `raw`. -/
def postDeleteArgs : SignalArgs := ⟨none, none⟩

/-- Outcome of running one receiver: it ran `instance.apply(d)`, it returned
without applying, or the call itself failed with a `TypeError` because a
required positional argument was missing. -/
inductive DispatchResult where
  | applied (dir : Int)
  | noop
  | typeError
deriving DecidableEq, Repr

/-- `apply_instance(sender, instance, created, raw, *args, **kwargs)`: runs
`instance.apply()` (direction +1) iff `created and not raw`.  Its `created`
and `raw` parameters are required positionals, so a dispatch that does not
supply them fails with `TypeError` before the body runs. -/
def apply_instance (args : SignalArgs) : DispatchResult :=
  match args.created, args.raw with
  | some created, some raw => if created ∧ ¬ raw then .applied 1 else .noop
  | _, _ => .typeError

/-- `unapply_instance(sender, instance, *args, **kwargs)`: runs
`instance.apply(-1)`; it requires no extra arguments, so it succeeds under
any dispatch. -/
def unapply_instance (_args : SignalArgs) : DispatchResult := .applied (-1)

/-- The two receiver functions defined in the source. -/
inductive Receiver where
  | applyInstance
  | unapplyInstance
deriving DecidableEq, Repr

/-- Run a receiver on the arguments a dispatch supplies. -/
def runReceiver : Receiver → SignalArgs → DispatchResult
  | .applyInstance, args => apply_instance args
  | .unapplyInstance, args => unapply_instance args

/-- Receivers connected to `post_save` for each model in
`MODELS_WITH_APPLY` (the `signals.post_save.connect(apply_instance, ...)`
line). -/
def postSaveReceivers : List Receiver := [.applyInstance]

/-- Receivers connected to `post_delete` for each model in
`MODELS_WITH_APPLY`: the source connects `apply_instance` here as well
(`signals.post_delete.connect(apply_instance, sender=model)`), and
`unapply_instance` is never connected to anything. -/
def postDeleteReceivers : List Receiver := [.applyInstance]

/-- What the connected receivers do on a `post_save` dispatch. -/
def saveDispatch (created raw : Bool) : List DispatchResult :=
  postSaveReceivers.map (fun r => runReceiver r (postSaveArgs created raw))

/-- What the connected receivers do on a `post_delete` dispatch. -/
def deleteDispatch : List DispatchResult :=
  postDeleteReceivers.map (fun r => runReceiver r postDeleteArgs)

/-- Effect on the counters of durably creating a `Vote` row (its `save()`
fires `post_save` with `created=True`, `raw=False`, whose receiver runs
`apply()` as dictated by the dispatch model). -/
def createVote (v : Vote) (s : State) : State :=
  match apply_instance (postSaveArgs true false) with
  | .applied d => v.apply d s
  | _ => s

/-- Effect on the counters of durably creating an `Award` row, through the
same `post_save` wiring. -/
def createAward (a : Award) (s : State) : State :=
  match apply_instance (postSaveArgs true false) with
  | .applied d => a.apply d s
  | _ => s

/-! ### Users and the vote-casting entry point -/

/-- A user as the vote entry point sees it: an id plus the
`is_anonymous()` predicate of the auth framework. -/
structure UserR where
  id : Nat
  is_anonymous : Bool
deriving DecidableEq, Repr

/-- `Post.add_vote(user, vote_type)`: builds the `Vote` row
`Vote(author=user, type=vote_type, post=self)` (its `save()` then fires the
creation signal). -/
def add_vote (user : UserR) (post : Nat) (vote_type : VoteType) : Vote :=
  ⟨user.id, post, vote_type⟩

/-- Domain error of the vote-casting operation. -/
inductive VoteError where
  | invalidActor
deriving DecidableEq, Repr

/-- Modelled from the spec: the request-level `castVote(user, post, type)`
operation lives in the view layer, which is not under `src/` (only its
callee `Post.add_vote` is).  Per the spec it fails with `InvalidActor` when
the user is anonymous and otherwise creates a Vote record, whose creation
triggers `apply(+1)` through the `post_save` wiring that is in `src/`. -/
def castVote (user : UserR) (post : Nat) (vote_type : VoteType) (s : State) :
    Except VoteError (Vote × State) :=
  if user.is_anonymous then .error .invalidActor
  else
    let v := add_vote user post vote_type
    .ok (v, createVote v s)

/-! ### Tag reference counting

`Post.set_tags` stores the canonical tag string, clears the m2m `tag_set`
(firing the `pre_clear` branch of `tags_changed`, which decrements the count
of every tag currently in the set), fetches-or-creates a `Tag` row per name
in `tag_string.split(' ')`, and adds them all (firing the `post_add` branch,
which increments the count of every newly linked tag once — the m2m relation
is a set, so duplicate names link once). -/

/-- Python `str.split(sep)` for a single-character separator, on the
character list: splits at every occurrence and keeps empty pieces, so the
result is never empty (`''.split(' ') == ['']`). -/
def splitCharAux (sep : Char) : List Char → List (List Char)
  | [] => [[]]
  | c :: rest =>
    if c = sep then [] :: splitCharAux sep rest
    else
      match splitCharAux sep rest with
      | [] => [[c]]
      | s :: ss => (c :: s) :: ss

/-- Python `s.split(sep)` for a one-character separator. -/
def pySplit (s : String) (sep : Char) : List String :=
  (splitCharAux sep s.data).map (fun cs => String.mk cs)

/-- The tag table together with one post's tag fields: the post's canonical
`tag_string`, its m2m `tag_set` (as a duplicate-free list of tag names), and
the `Tag` rows as a map from name to `count` (`none` when no row with that
name exists; a freshly created row has the default `count = 0`). -/
structure TagState where
  tag_string : String
  postTagSet : List String
  tagRows : String → Option Int

/-- `Post.set_tags(tag_string)` together with the `tags_changed` m2m signal
handler: store the string, `pre_clear` decrements every tag currently in the
post's `tag_set`, the loop fetches-or-creates a row per split name, and
`post_add` increments every newly linked tag once. -/
def set_tags (s : TagState) (tag_string : String) : TagState :=
  let names := pySplit tag_string ' '
  let afterClear : String → Option Int := fun t =>
    if t ∈ s.postTagSet then (s.tagRows t).map (fun c => c - 1) else s.tagRows t
  let afterCreate : String → Option Int := fun t =>
    if t ∈ names then some ((afterClear t).getD 0) else afterClear t
  let afterAdd : String → Option Int := fun t =>
    if t ∈ names then (afterCreate t).map (fun c => c + 1) else afterCreate t
  { tag_string := tag_string, postTagSet := names.dedup, tagRows := afterAdd }

/-- `Post.get_tags()`: `self.tag_string.split(' ')`. -/
def get_tags (s : TagState) : List String := pySplit s.tag_string ' '

/-! ### Revision history -/

/-- Python `str.splitlines` over a character list, for the line terminators
`\r\n`, `\r` and `\n`: a trailing terminator yields no extra empty line and
the empty string yields no lines. -/
def splitlinesAux : List Char → List Char → List (List Char)
  | [], acc => if acc.isEmpty then [] else [acc.reverse]
  | '\r' :: '\n' :: rest, acc => acc.reverse :: splitlinesAux rest []
  | '\r' :: rest, acc => acc.reverse :: splitlinesAux rest []
  | '\n' :: rest, acc => acc.reverse :: splitlinesAux rest []
  | c :: rest, acc => splitlinesAux rest (c :: acc)
termination_by l _ => l.length

/-- Python `content.splitlines()`. -/
def pySplitlines (s : String) : List String :=
  (splitlinesAux s.data []).map (fun cs => String.mk cs)

/-- The `"\n".join(content.splitlines())` normalization of
`create_revision`. -/
def normalizeContent (content : String) : String :=
  String.intercalate "\n" (pySplitlines content)

/-- Python truthiness of `arg or current` for an optional string argument:
both an omitted argument (`None`) and an explicit empty string are falsy and
fall back to the current value. -/
def strOrDefault (arg : Option String) (current : String) : String :=
  match arg with
  | none => current
  | some s => if s = "" then current else s

/-- The live fields of one `Post` row that `create_revision` touches
(besides the tag fields, which live in `TagState`). -/
structure PostFields where
  id : Nat
  author : Nat
  content : String
  html : String
  title : String
  revision_count : Int
  lastedit_user : Nat
  lastedit_date : Nat
deriving DecidableEq, Repr

/-- `Post.create_revision(content, title, tag_string, author, date)`:
defaults every falsy argument to the post's current value (author to the
original author, date to now), saves the immutable `PostRevision` snapshot
with the *pre-normalization* content (its `save()` fires `apply(+1)`, which
increments `revision_count`), then normalizes line endings, updates the live
post's last-edit metadata, rendered HTML (via the external renderer
`render`), content, title, and tags (via `set_tags`).  Returns the snapshot,
the updated post fields and the updated tag state. -/
def create_revision (render : String → String) (p : PostFields) (ts : TagState)
    (content title tag_string : Option String) (author : Option Nat)
    (date : Option Nat) (now : Nat) :
    PostRevision × PostFields × TagState :=
  let content0 := strOrDefault content p.content
  let title0 := strOrDefault title p.title
  let tag_string0 := strOrDefault tag_string ts.tag_string
  let author0 := author.getD p.author
  let date0 := date.getD now
  let revision : PostRevision :=
    ⟨p.id, content0, tag_string0, title0, author0, date0⟩
  let contentN := normalizeContent content0
  let pNew : PostFields :=
    { p with
      revision_count := p.revision_count + 1,
      lastedit_date := date0,
      lastedit_user := author0,
      html := render contentN,
      content := contentN,
      title := title0 }
  (revision, pNew, set_tags ts tag_string0)

/-- One insertion step of sorting a revision list ascending by `date`. -/
def insertByDate (r : PostRevision) : List PostRevision → List PostRevision
  | [] => [r]
  | x :: xs => if r.date ≤ x.date then r :: x :: xs else x :: insertByDate r xs

/-- The queryset `revisions.order_by('date')`: the post's revisions sorted
ascending by date. -/
def order_by_date : List PostRevision → List PostRevision
  | [] => []
  | x :: xs => insertByDate x (order_by_date xs)

/-- `Post.current_revision()`: `self.revisions.order_by('date')[0]`, i.e.
the head of the date-ascending ordering (`none` when the post has no
revisions, where the source would raise `IndexError`). -/
def current_revision (revs : List PostRevision) : Option PostRevision :=
  (order_by_date revs).head?

/-! ### Spec-side scoring table

Named from the spec's scoring table, to be compared with the mutations the
source's `Vote.apply` performs. -/

/-- Modelled from the spec: post-score delta per vote type (Upvote +1,
Downvote −1, Accept unaffected). -/
def specPostScoreDelta : VoteType → Int
  | .up => 1
  | .down => -1
  | .accept => 0

/-- Modelled from the spec: post-author reputation delta per vote type
(Upvote +10, Downvote −2, Accept +15). -/
def specAuthorRepDelta : VoteType → Int
  | .up => 10
  | .down => -2
  | .accept => 15

/-- Modelled from the spec: voter reputation delta per vote type (Downvote
−1, Accept +2, Upvote none). -/
def specVoterRepDelta : VoteType → Int
  | .up => 0
  | .down => -1
  | .accept => 2

/-- All denormalized counters of two states agree: profile scores, the three
badge-tier counts, post scores, comment/revision counts, question answer
counts, and badge award counts. -/
def countersUnchanged (s1 s2 : State) : Prop :=
  s1.profileScore = s2.profileScore ∧
  s1.profileBronze = s2.profileBronze ∧
  s1.profileSilver = s2.profileSilver ∧
  s1.profileGold = s2.profileGold ∧
  s1.postScore = s2.postScore ∧
  s1.postCommentCount = s2.postCommentCount ∧
  s1.postRevisionCount = s2.postRevisionCount ∧
  s1.questionAnswerCount = s2.questionAnswerCount ∧
  s1.badgeCount = s2.badgeCount

/-! ### Concrete states for evaluation -/

/-- A store whose counters are all zero and whose flags are all clear. -/
def zeroState : State where
  profileScore := fun _ => 0
  profileBronze := fun _ => 0
  profileSilver := fun _ => 0
  profileGold := fun _ => 0
  postScore := fun _ => 0
  postCommentCount := fun _ => 0
  postRevisionCount := fun _ => 0
  questionAnswerCount := fun _ => 0
  questionAnswerAccepted := fun _ => false
  answerAccepted := fun _ => false
  badgeCount := fun _ => 0
  postAuthor := fun _ => 0
  answerOfPost := fun _ => 0
  questionOfAnswer := fun _ => 0
  badgeType := fun _ => BadgeType.bronze
  badgeUnique := fun _ => false

/-- Question 0 with two answers: answer 1 wraps post 11 (author 1), answer 2
wraps post 12 (author 2); nothing accepted yet. -/
def twoAnswerState : State :=
  { zeroState with
    postAuthor := fun p => if p = 11 then 1 else 2,
    answerOfPost := fun p => if p = 11 then 1 else 2,
    questionOfAnswer := fun _ => 0 }

/-- A store in which every badge is marked `unique`. -/
def uniqueBadgeState : State :=
  { zeroState with badgeUnique := fun _ => true }

/-- A post with the empty tag string, an empty tag set, and no `Tag` rows at
all. -/
def emptyTagState : TagState :=
  ⟨"", [], fun _ => none⟩

/-- A post tagged `"a b"` where the `Tag` row `a` has count 1 (only this
post) and `b` has count 2 (one other post also holds it). -/
def abTagState : TagState :=
  ⟨"a b", ["a", "b"],
    fun t => if t = "a" then some 1 else if t = "b" then some 2 else none⟩

/-- A revision of post 7 dated 1 (the older snapshot). -/
def oldRevision : PostRevision := ⟨7, "first text", "tags", "title", 1, 1⟩

/-- A revision of post 7 dated 2 (the newer snapshot). -/
def newRevision : PostRevision := ⟨7, "second text", "tags", "title", 1, 2⟩

/-! ### Per-field projection lemmas for the apply transformers -/

@[simp] lemma updFun_point (f : Nat → Int) (k : Nat) (d : Int) (x : Nat) :
    updFun f k d x = if x = k then f x + d else f x := rfl


@[simp] lemma Vote_applyRep_profileScore (v : Vote) (dir : Int) (s : State) :
    (Vote.applyRep v dir s).profileScore = if v.reputation = 0 then s.profileScore else updFun s.profileScore (s.postAuthor v.post) (dir * v.reputation) := by unfold Vote.applyRep; split <;> rfl

@[simp] lemma Vote_applyRep_profileBronze (v : Vote) (dir : Int) (s : State) :
    (Vote.applyRep v dir s).profileBronze = s.profileBronze := by unfold Vote.applyRep; split <;> rfl

@[simp] lemma Vote_applyRep_profileSilver (v : Vote) (dir : Int) (s : State) :
    (Vote.applyRep v dir s).profileSilver = s.profileSilver := by unfold Vote.applyRep; split <;> rfl

@[simp] lemma Vote_applyRep_profileGold (v : Vote) (dir : Int) (s : State) :
    (Vote.applyRep v dir s).profileGold = s.profileGold := by unfold Vote.applyRep; split <;> rfl

@[simp] lemma Vote_applyRep_postScore (v : Vote) (dir : Int) (s : State) :
    (Vote.applyRep v dir s).postScore = s.postScore := by unfold Vote.applyRep; split <;> rfl

@[simp] lemma Vote_applyRep_postCommentCount (v : Vote) (dir : Int) (s : State) :
    (Vote.applyRep v dir s).postCommentCount = s.postCommentCount := by unfold Vote.applyRep; split <;> rfl

@[simp] lemma Vote_applyRep_postRevisionCount (v : Vote) (dir : Int) (s : State) :
    (Vote.applyRep v dir s).postRevisionCount = s.postRevisionCount := by unfold Vote.applyRep; split <;> rfl

@[simp] lemma Vote_applyRep_questionAnswerCount (v : Vote) (dir : Int) (s : State) :
    (Vote.applyRep v dir s).questionAnswerCount = s.questionAnswerCount := by unfold Vote.applyRep; split <;> rfl

@[simp] lemma Vote_applyRep_questionAnswerAccepted (v : Vote) (dir : Int) (s : State) :
    (Vote.applyRep v dir s).questionAnswerAccepted = s.questionAnswerAccepted := by unfold Vote.applyRep; split <;> rfl

@[simp] lemma Vote_applyRep_answerAccepted (v : Vote) (dir : Int) (s : State) :
    (Vote.applyRep v dir s).answerAccepted = s.answerAccepted := by unfold Vote.applyRep; split <;> rfl

@[simp] lemma Vote_applyRep_badgeCount (v : Vote) (dir : Int) (s : State) :
    (Vote.applyRep v dir s).badgeCount = s.badgeCount := by unfold Vote.applyRep; split <;> rfl

@[simp] lemma Vote_applyRep_postAuthor (v : Vote) (dir : Int) (s : State) :
    (Vote.applyRep v dir s).postAuthor = s.postAuthor := by unfold Vote.applyRep; split <;> rfl

@[simp] lemma Vote_applyRep_answerOfPost (v : Vote) (dir : Int) (s : State) :
    (Vote.applyRep v dir s).answerOfPost = s.answerOfPost := by unfold Vote.applyRep; split <;> rfl

@[simp] lemma Vote_applyRep_questionOfAnswer (v : Vote) (dir : Int) (s : State) :
    (Vote.applyRep v dir s).questionOfAnswer = s.questionOfAnswer := by unfold Vote.applyRep; split <;> rfl

@[simp] lemma Vote_applyRep_badgeType (v : Vote) (dir : Int) (s : State) :
    (Vote.applyRep v dir s).badgeType = s.badgeType := by unfold Vote.applyRep; split <;> rfl

@[simp] lemma Vote_applyRep_badgeUnique (v : Vote) (dir : Int) (s : State) :
    (Vote.applyRep v dir s).badgeUnique = s.badgeUnique := by unfold Vote.applyRep; split <;> rfl

@[simp] lemma Vote_applyVoterRep_profileScore (v : Vote) (dir : Int) (s : State) :
    (Vote.applyVoterRep v dir s).profileScore = if v.voter_reputation = 0 then s.profileScore else updFun s.profileScore v.author (dir * v.voter_reputation) := by unfold Vote.applyVoterRep; split <;> rfl

@[simp] lemma Vote_applyVoterRep_profileBronze (v : Vote) (dir : Int) (s : State) :
    (Vote.applyVoterRep v dir s).profileBronze = s.profileBronze := by unfold Vote.applyVoterRep; split <;> rfl

@[simp] lemma Vote_applyVoterRep_profileSilver (v : Vote) (dir : Int) (s : State) :
    (Vote.applyVoterRep v dir s).profileSilver = s.profileSilver := by unfold Vote.applyVoterRep; split <;> rfl

@[simp] lemma Vote_applyVoterRep_profileGold (v : Vote) (dir : Int) (s : State) :
    (Vote.applyVoterRep v dir s).profileGold = s.profileGold := by unfold Vote.applyVoterRep; split <;> rfl

@[simp] lemma Vote_applyVoterRep_postScore (v : Vote) (dir : Int) (s : State) :
    (Vote.applyVoterRep v dir s).postScore = s.postScore := by unfold Vote.applyVoterRep; split <;> rfl

@[simp] lemma Vote_applyVoterRep_postCommentCount (v : Vote) (dir : Int) (s : State) :
    (Vote.applyVoterRep v dir s).postCommentCount = s.postCommentCount := by unfold Vote.applyVoterRep; split <;> rfl

@[simp] lemma Vote_applyVoterRep_postRevisionCount (v : Vote) (dir : Int) (s : State) :
    (Vote.applyVoterRep v dir s).postRevisionCount = s.postRevisionCount := by unfold Vote.applyVoterRep; split <;> rfl

@[simp] lemma Vote_applyVoterRep_questionAnswerCount (v : Vote) (dir : Int) (s : State) :
    (Vote.applyVoterRep v dir s).questionAnswerCount = s.questionAnswerCount := by unfold Vote.applyVoterRep; split <;> rfl

@[simp] lemma Vote_applyVoterRep_questionAnswerAccepted (v : Vote) (dir : Int) (s : State) :
    (Vote.applyVoterRep v dir s).questionAnswerAccepted = s.questionAnswerAccepted := by unfold Vote.applyVoterRep; split <;> rfl

@[simp] lemma Vote_applyVoterRep_answerAccepted (v : Vote) (dir : Int) (s : State) :
    (Vote.applyVoterRep v dir s).answerAccepted = s.answerAccepted := by unfold Vote.applyVoterRep; split <;> rfl

@[simp] lemma Vote_applyVoterRep_badgeCount (v : Vote) (dir : Int) (s : State) :
    (Vote.applyVoterRep v dir s).badgeCount = s.badgeCount := by unfold Vote.applyVoterRep; split <;> rfl

@[simp] lemma Vote_applyVoterRep_postAuthor (v : Vote) (dir : Int) (s : State) :
    (Vote.applyVoterRep v dir s).postAuthor = s.postAuthor := by unfold Vote.applyVoterRep; split <;> rfl

@[simp] lemma Vote_applyVoterRep_answerOfPost (v : Vote) (dir : Int) (s : State) :
    (Vote.applyVoterRep v dir s).answerOfPost = s.answerOfPost := by unfold Vote.applyVoterRep; split <;> rfl

@[simp] lemma Vote_applyVoterRep_questionOfAnswer (v : Vote) (dir : Int) (s : State) :
    (Vote.applyVoterRep v dir s).questionOfAnswer = s.questionOfAnswer := by unfold Vote.applyVoterRep; split <;> rfl

@[simp] lemma Vote_applyVoterRep_badgeType (v : Vote) (dir : Int) (s : State) :
    (Vote.applyVoterRep v dir s).badgeType = s.badgeType := by unfold Vote.applyVoterRep; split <;> rfl

@[simp] lemma Vote_applyVoterRep_badgeUnique (v : Vote) (dir : Int) (s : State) :
    (Vote.applyVoterRep v dir s).badgeUnique = s.badgeUnique := by unfold Vote.applyVoterRep; split <;> rfl

@[simp] lemma Vote_applyScore_profileScore (v : Vote) (dir : Int) (s : State) :
    (Vote.applyScore v dir s).profileScore = s.profileScore := by unfold Vote.applyScore; split <;> rfl

@[simp] lemma Vote_applyScore_profileBronze (v : Vote) (dir : Int) (s : State) :
    (Vote.applyScore v dir s).profileBronze = s.profileBronze := by unfold Vote.applyScore; split <;> rfl

@[simp] lemma Vote_applyScore_profileSilver (v : Vote) (dir : Int) (s : State) :
    (Vote.applyScore v dir s).profileSilver = s.profileSilver := by unfold Vote.applyScore; split <;> rfl

@[simp] lemma Vote_applyScore_profileGold (v : Vote) (dir : Int) (s : State) :
    (Vote.applyScore v dir s).profileGold = s.profileGold := by unfold Vote.applyScore; split <;> rfl

@[simp] lemma Vote_applyScore_postScore (v : Vote) (dir : Int) (s : State) :
    (Vote.applyScore v dir s).postScore = if v.score = 0 then s.postScore else updFun s.postScore v.post (dir * v.score) := by unfold Vote.applyScore; split <;> rfl

@[simp] lemma Vote_applyScore_postCommentCount (v : Vote) (dir : Int) (s : State) :
    (Vote.applyScore v dir s).postCommentCount = s.postCommentCount := by unfold Vote.applyScore; split <;> rfl

@[simp] lemma Vote_applyScore_postRevisionCount (v : Vote) (dir : Int) (s : State) :
    (Vote.applyScore v dir s).postRevisionCount = s.postRevisionCount := by unfold Vote.applyScore; split <;> rfl

@[simp] lemma Vote_applyScore_questionAnswerCount (v : Vote) (dir : Int) (s : State) :
    (Vote.applyScore v dir s).questionAnswerCount = s.questionAnswerCount := by unfold Vote.applyScore; split <;> rfl

@[simp] lemma Vote_applyScore_questionAnswerAccepted (v : Vote) (dir : Int) (s : State) :
    (Vote.applyScore v dir s).questionAnswerAccepted = s.questionAnswerAccepted := by unfold Vote.applyScore; split <;> rfl

@[simp] lemma Vote_applyScore_answerAccepted (v : Vote) (dir : Int) (s : State) :
    (Vote.applyScore v dir s).answerAccepted = s.answerAccepted := by unfold Vote.applyScore; split <;> rfl

@[simp] lemma Vote_applyScore_badgeCount (v : Vote) (dir : Int) (s : State) :
    (Vote.applyScore v dir s).badgeCount = s.badgeCount := by unfold Vote.applyScore; split <;> rfl

@[simp] lemma Vote_applyScore_postAuthor (v : Vote) (dir : Int) (s : State) :
    (Vote.applyScore v dir s).postAuthor = s.postAuthor := by unfold Vote.applyScore; split <;> rfl

@[simp] lemma Vote_applyScore_answerOfPost (v : Vote) (dir : Int) (s : State) :
    (Vote.applyScore v dir s).answerOfPost = s.answerOfPost := by unfold Vote.applyScore; split <;> rfl

@[simp] lemma Vote_applyScore_questionOfAnswer (v : Vote) (dir : Int) (s : State) :
    (Vote.applyScore v dir s).questionOfAnswer = s.questionOfAnswer := by unfold Vote.applyScore; split <;> rfl

@[simp] lemma Vote_applyScore_badgeType (v : Vote) (dir : Int) (s : State) :
    (Vote.applyScore v dir s).badgeType = s.badgeType := by unfold Vote.applyScore; split <;> rfl

@[simp] lemma Vote_applyScore_badgeUnique (v : Vote) (dir : Int) (s : State) :
    (Vote.applyScore v dir s).badgeUnique = s.badgeUnique := by unfold Vote.applyScore; split <;> rfl

@[simp] lemma Vote_applyAccept_profileScore (v : Vote) (dir : Int) (s : State) :
    (Vote.applyAccept v dir s).profileScore = s.profileScore := by unfold Vote.applyAccept; split <;> rfl

@[simp] lemma Vote_applyAccept_profileBronze (v : Vote) (dir : Int) (s : State) :
    (Vote.applyAccept v dir s).profileBronze = s.profileBronze := by unfold Vote.applyAccept; split <;> rfl

@[simp] lemma Vote_applyAccept_profileSilver (v : Vote) (dir : Int) (s : State) :
    (Vote.applyAccept v dir s).profileSilver = s.profileSilver := by unfold Vote.applyAccept; split <;> rfl

@[simp] lemma Vote_applyAccept_profileGold (v : Vote) (dir : Int) (s : State) :
    (Vote.applyAccept v dir s).profileGold = s.profileGold := by unfold Vote.applyAccept; split <;> rfl

@[simp] lemma Vote_applyAccept_postScore (v : Vote) (dir : Int) (s : State) :
    (Vote.applyAccept v dir s).postScore = s.postScore := by unfold Vote.applyAccept; split <;> rfl

@[simp] lemma Vote_applyAccept_postCommentCount (v : Vote) (dir : Int) (s : State) :
    (Vote.applyAccept v dir s).postCommentCount = s.postCommentCount := by unfold Vote.applyAccept; split <;> rfl

@[simp] lemma Vote_applyAccept_postRevisionCount (v : Vote) (dir : Int) (s : State) :
    (Vote.applyAccept v dir s).postRevisionCount = s.postRevisionCount := by unfold Vote.applyAccept; split <;> rfl

@[simp] lemma Vote_applyAccept_questionAnswerCount (v : Vote) (dir : Int) (s : State) :
    (Vote.applyAccept v dir s).questionAnswerCount = s.questionAnswerCount := by unfold Vote.applyAccept; split <;> rfl

@[simp] lemma Vote_applyAccept_questionAnswerAccepted (v : Vote) (dir : Int) (s : State) :
    (Vote.applyAccept v dir s).questionAnswerAccepted = if v.type = VoteType.accept then (fun q => if q = s.questionOfAnswer (s.answerOfPost v.post) then (if dir = 1 then true else false) else s.questionAnswerAccepted q) else s.questionAnswerAccepted := by unfold Vote.applyAccept; split <;> rfl

@[simp] lemma Vote_applyAccept_answerAccepted (v : Vote) (dir : Int) (s : State) :
    (Vote.applyAccept v dir s).answerAccepted = if v.type = VoteType.accept then (fun a => if a = s.answerOfPost v.post then (if dir = 1 then true else false) else s.answerAccepted a) else s.answerAccepted := by unfold Vote.applyAccept; split <;> rfl

@[simp] lemma Vote_applyAccept_badgeCount (v : Vote) (dir : Int) (s : State) :
    (Vote.applyAccept v dir s).badgeCount = s.badgeCount := by unfold Vote.applyAccept; split <;> rfl

@[simp] lemma Vote_applyAccept_postAuthor (v : Vote) (dir : Int) (s : State) :
    (Vote.applyAccept v dir s).postAuthor = s.postAuthor := by unfold Vote.applyAccept; split <;> rfl

@[simp] lemma Vote_applyAccept_answerOfPost (v : Vote) (dir : Int) (s : State) :
    (Vote.applyAccept v dir s).answerOfPost = s.answerOfPost := by unfold Vote.applyAccept; split <;> rfl

@[simp] lemma Vote_applyAccept_questionOfAnswer (v : Vote) (dir : Int) (s : State) :
    (Vote.applyAccept v dir s).questionOfAnswer = s.questionOfAnswer := by unfold Vote.applyAccept; split <;> rfl

@[simp] lemma Vote_applyAccept_badgeType (v : Vote) (dir : Int) (s : State) :
    (Vote.applyAccept v dir s).badgeType = s.badgeType := by unfold Vote.applyAccept; split <;> rfl

@[simp] lemma Vote_applyAccept_badgeUnique (v : Vote) (dir : Int) (s : State) :
    (Vote.applyAccept v dir s).badgeUnique = s.badgeUnique := by unfold Vote.applyAccept; split <;> rfl

@[simp] lemma Award_apply_profileScore (a : Award) (dir : Int) (s : State) :
    (Award.apply a dir s).profileScore = s.profileScore := by simp only [Award.apply]; split_ifs <;> rfl

@[simp] lemma Award_apply_profileBronze (a : Award) (dir : Int) (s : State) :
    (Award.apply a dir s).profileBronze = if s.badgeType a.badge = BadgeType.bronze then updFun s.profileBronze a.user dir else s.profileBronze := by simp only [Award.apply]; split_ifs <;> rfl

@[simp] lemma Award_apply_profileSilver (a : Award) (dir : Int) (s : State) :
    (Award.apply a dir s).profileSilver = if s.badgeType a.badge = BadgeType.silver then updFun s.profileSilver a.user dir else s.profileSilver := by simp only [Award.apply]; split_ifs <;> rfl

@[simp] lemma Award_apply_profileGold (a : Award) (dir : Int) (s : State) :
    (Award.apply a dir s).profileGold = if s.badgeType a.badge = BadgeType.gold then updFun s.profileGold a.user dir else s.profileGold := by simp only [Award.apply]; split_ifs <;> rfl

@[simp] lemma Award_apply_postScore (a : Award) (dir : Int) (s : State) :
    (Award.apply a dir s).postScore = s.postScore := by simp only [Award.apply]; split_ifs <;> rfl

@[simp] lemma Award_apply_postCommentCount (a : Award) (dir : Int) (s : State) :
    (Award.apply a dir s).postCommentCount = s.postCommentCount := by simp only [Award.apply]; split_ifs <;> rfl

@[simp] lemma Award_apply_postRevisionCount (a : Award) (dir : Int) (s : State) :
    (Award.apply a dir s).postRevisionCount = s.postRevisionCount := by simp only [Award.apply]; split_ifs <;> rfl

@[simp] lemma Award_apply_questionAnswerCount (a : Award) (dir : Int) (s : State) :
    (Award.apply a dir s).questionAnswerCount = s.questionAnswerCount := by simp only [Award.apply]; split_ifs <;> rfl

@[simp] lemma Award_apply_questionAnswerAccepted (a : Award) (dir : Int) (s : State) :
    (Award.apply a dir s).questionAnswerAccepted = s.questionAnswerAccepted := by simp only [Award.apply]; split_ifs <;> rfl

@[simp] lemma Award_apply_answerAccepted (a : Award) (dir : Int) (s : State) :
    (Award.apply a dir s).answerAccepted = s.answerAccepted := by simp only [Award.apply]; split_ifs <;> rfl

@[simp] lemma Award_apply_badgeCount (a : Award) (dir : Int) (s : State) :
    (Award.apply a dir s).badgeCount = updFun s.badgeCount a.badge dir := by simp only [Award.apply]; split_ifs <;> rfl

@[simp] lemma Award_apply_postAuthor (a : Award) (dir : Int) (s : State) :
    (Award.apply a dir s).postAuthor = s.postAuthor := by simp only [Award.apply]; split_ifs <;> rfl

@[simp] lemma Award_apply_answerOfPost (a : Award) (dir : Int) (s : State) :
    (Award.apply a dir s).answerOfPost = s.answerOfPost := by simp only [Award.apply]; split_ifs <;> rfl

@[simp] lemma Award_apply_questionOfAnswer (a : Award) (dir : Int) (s : State) :
    (Award.apply a dir s).questionOfAnswer = s.questionOfAnswer := by simp only [Award.apply]; split_ifs <;> rfl

@[simp] lemma Award_apply_badgeType (a : Award) (dir : Int) (s : State) :
    (Award.apply a dir s).badgeType = s.badgeType := by simp only [Award.apply]; split_ifs <;> rfl

@[simp] lemma Award_apply_badgeUnique (a : Award) (dir : Int) (s : State) :
    (Award.apply a dir s).badgeUnique = s.badgeUnique := by simp only [Award.apply]; split_ifs <;> rfl

@[simp] lemma Comment_apply_profileScore (c : Comment) (dir : Int) (s : State) :
    (Comment.apply c dir s).profileScore = s.profileScore := rfl

@[simp] lemma Comment_apply_profileBronze (c : Comment) (dir : Int) (s : State) :
    (Comment.apply c dir s).profileBronze = s.profileBronze := rfl

@[simp] lemma Comment_apply_profileSilver (c : Comment) (dir : Int) (s : State) :
    (Comment.apply c dir s).profileSilver = s.profileSilver := rfl

@[simp] lemma Comment_apply_profileGold (c : Comment) (dir : Int) (s : State) :
    (Comment.apply c dir s).profileGold = s.profileGold := rfl

@[simp] lemma Comment_apply_postScore (c : Comment) (dir : Int) (s : State) :
    (Comment.apply c dir s).postScore = s.postScore := rfl

@[simp] lemma Comment_apply_postCommentCount (c : Comment) (dir : Int) (s : State) :
    (Comment.apply c dir s).postCommentCount = updFun s.postCommentCount c.parent dir := rfl

@[simp] lemma Comment_apply_postRevisionCount (c : Comment) (dir : Int) (s : State) :
    (Comment.apply c dir s).postRevisionCount = s.postRevisionCount := rfl

@[simp] lemma Comment_apply_questionAnswerCount (c : Comment) (dir : Int) (s : State) :
    (Comment.apply c dir s).questionAnswerCount = s.questionAnswerCount := rfl

@[simp] lemma Comment_apply_questionAnswerAccepted (c : Comment) (dir : Int) (s : State) :
    (Comment.apply c dir s).questionAnswerAccepted = s.questionAnswerAccepted := rfl

@[simp] lemma Comment_apply_answerAccepted (c : Comment) (dir : Int) (s : State) :
    (Comment.apply c dir s).answerAccepted = s.answerAccepted := rfl

@[simp] lemma Comment_apply_badgeCount (c : Comment) (dir : Int) (s : State) :
    (Comment.apply c dir s).badgeCount = s.badgeCount := rfl

@[simp] lemma Comment_apply_postAuthor (c : Comment) (dir : Int) (s : State) :
    (Comment.apply c dir s).postAuthor = s.postAuthor := rfl

@[simp] lemma Comment_apply_answerOfPost (c : Comment) (dir : Int) (s : State) :
    (Comment.apply c dir s).answerOfPost = s.answerOfPost := rfl

@[simp] lemma Comment_apply_questionOfAnswer (c : Comment) (dir : Int) (s : State) :
    (Comment.apply c dir s).questionOfAnswer = s.questionOfAnswer := rfl

@[simp] lemma Comment_apply_badgeType (c : Comment) (dir : Int) (s : State) :
    (Comment.apply c dir s).badgeType = s.badgeType := rfl

@[simp] lemma Comment_apply_badgeUnique (c : Comment) (dir : Int) (s : State) :
    (Comment.apply c dir s).badgeUnique = s.badgeUnique := rfl

@[simp] lemma Answer_apply_profileScore (a : Answer) (dir : Int) (s : State) :
    (Answer.apply a dir s).profileScore = s.profileScore := rfl

@[simp] lemma Answer_apply_profileBronze (a : Answer) (dir : Int) (s : State) :
    (Answer.apply a dir s).profileBronze = s.profileBronze := rfl

@[simp] lemma Answer_apply_profileSilver (a : Answer) (dir : Int) (s : State) :
    (Answer.apply a dir s).profileSilver = s.profileSilver := rfl

@[simp] lemma Answer_apply_profileGold (a : Answer) (dir : Int) (s : State) :
    (Answer.apply a dir s).profileGold = s.profileGold := rfl

@[simp] lemma Answer_apply_postScore (a : Answer) (dir : Int) (s : State) :
    (Answer.apply a dir s).postScore = s.postScore := rfl

@[simp] lemma Answer_apply_postCommentCount (a : Answer) (dir : Int) (s : State) :
    (Answer.apply a dir s).postCommentCount = s.postCommentCount := rfl

@[simp] lemma Answer_apply_postRevisionCount (a : Answer) (dir : Int) (s : State) :
    (Answer.apply a dir s).postRevisionCount = s.postRevisionCount := rfl

@[simp] lemma Answer_apply_questionAnswerCount (a : Answer) (dir : Int) (s : State) :
    (Answer.apply a dir s).questionAnswerCount = updFun s.questionAnswerCount a.question dir := rfl

@[simp] lemma Answer_apply_questionAnswerAccepted (a : Answer) (dir : Int) (s : State) :
    (Answer.apply a dir s).questionAnswerAccepted = s.questionAnswerAccepted := rfl

@[simp] lemma Answer_apply_answerAccepted (a : Answer) (dir : Int) (s : State) :
    (Answer.apply a dir s).answerAccepted = s.answerAccepted := rfl

@[simp] lemma Answer_apply_badgeCount (a : Answer) (dir : Int) (s : State) :
    (Answer.apply a dir s).badgeCount = s.badgeCount := rfl

@[simp] lemma Answer_apply_postAuthor (a : Answer) (dir : Int) (s : State) :
    (Answer.apply a dir s).postAuthor = s.postAuthor := rfl

@[simp] lemma Answer_apply_answerOfPost (a : Answer) (dir : Int) (s : State) :
    (Answer.apply a dir s).answerOfPost = s.answerOfPost := rfl

@[simp] lemma Answer_apply_questionOfAnswer (a : Answer) (dir : Int) (s : State) :
    (Answer.apply a dir s).questionOfAnswer = s.questionOfAnswer := rfl

@[simp] lemma Answer_apply_badgeType (a : Answer) (dir : Int) (s : State) :
    (Answer.apply a dir s).badgeType = s.badgeType := rfl

@[simp] lemma Answer_apply_badgeUnique (a : Answer) (dir : Int) (s : State) :
    (Answer.apply a dir s).badgeUnique = s.badgeUnique := rfl

@[simp] lemma PostRevision_apply_profileScore (r : PostRevision) (dir : Int) (s : State) :
    (PostRevision.apply r dir s).profileScore = s.profileScore := rfl

@[simp] lemma PostRevision_apply_profileBronze (r : PostRevision) (dir : Int) (s : State) :
    (PostRevision.apply r dir s).profileBronze = s.profileBronze := rfl

@[simp] lemma PostRevision_apply_profileSilver (r : PostRevision) (dir : Int) (s : State) :
    (PostRevision.apply r dir s).profileSilver = s.profileSilver := rfl

@[simp] lemma PostRevision_apply_profileGold (r : PostRevision) (dir : Int) (s : State) :
    (PostRevision.apply r dir s).profileGold = s.profileGold := rfl

@[simp] lemma PostRevision_apply_postScore (r : PostRevision) (dir : Int) (s : State) :
    (PostRevision.apply r dir s).postScore = s.postScore := rfl

@[simp] lemma PostRevision_apply_postCommentCount (r : PostRevision) (dir : Int) (s : State) :
    (PostRevision.apply r dir s).postCommentCount = s.postCommentCount := rfl

@[simp] lemma PostRevision_apply_postRevisionCount (r : PostRevision) (dir : Int) (s : State) :
    (PostRevision.apply r dir s).postRevisionCount = updFun s.postRevisionCount r.post dir := rfl

@[simp] lemma PostRevision_apply_questionAnswerCount (r : PostRevision) (dir : Int) (s : State) :
    (PostRevision.apply r dir s).questionAnswerCount = s.questionAnswerCount := rfl

@[simp] lemma PostRevision_apply_questionAnswerAccepted (r : PostRevision) (dir : Int) (s : State) :
    (PostRevision.apply r dir s).questionAnswerAccepted = s.questionAnswerAccepted := rfl

@[simp] lemma PostRevision_apply_answerAccepted (r : PostRevision) (dir : Int) (s : State) :
    (PostRevision.apply r dir s).answerAccepted = s.answerAccepted := rfl

@[simp] lemma PostRevision_apply_badgeCount (r : PostRevision) (dir : Int) (s : State) :
    (PostRevision.apply r dir s).badgeCount = s.badgeCount := rfl

@[simp] lemma PostRevision_apply_postAuthor (r : PostRevision) (dir : Int) (s : State) :
    (PostRevision.apply r dir s).postAuthor = s.postAuthor := rfl

@[simp] lemma PostRevision_apply_answerOfPost (r : PostRevision) (dir : Int) (s : State) :
    (PostRevision.apply r dir s).answerOfPost = s.answerOfPost := rfl

@[simp] lemma PostRevision_apply_questionOfAnswer (r : PostRevision) (dir : Int) (s : State) :
    (PostRevision.apply r dir s).questionOfAnswer = s.questionOfAnswer := rfl

@[simp] lemma PostRevision_apply_badgeType (r : PostRevision) (dir : Int) (s : State) :
    (PostRevision.apply r dir s).badgeType = s.badgeType := rfl

@[simp] lemma PostRevision_apply_badgeUnique (r : PostRevision) (dir : Int) (s : State) :
    (PostRevision.apply r dir s).badgeUnique = s.badgeUnique := rfl

/-! ### Theorems -/

/-- Claim C2: for every effect-bearing record of every type (Vote, Award,
Comment, Answer, Revision) and every starting state, `apply(+1)` followed by
`apply(-1)` on the same record leaves every denormalized counter numerically
equal to its value before the pair ran. -/
theorem apply_then_unapply_restores_counters (s : State) :
    (∀ v : Vote, countersUnchanged (v.apply (-1) (v.apply 1 s)) s)
    ∧ (∀ a : Award, countersUnchanged (a.apply (-1) (a.apply 1 s)) s)
    ∧ (∀ c : Comment, countersUnchanged (c.apply (-1) (c.apply 1 s)) s)
    ∧ (∀ a : Answer, countersUnchanged (a.apply (-1) (a.apply 1 s)) s)
    ∧ (∀ r : PostRevision, countersUnchanged (r.apply (-1) (r.apply 1 s)) s) := by
  refine ⟨fun v => ?_, fun a => ?_, fun c => ?_, fun a => ?_, fun r => ?_⟩
  · obtain ⟨a, p, t⟩ := v
    cases t <;>
      refine ⟨funext fun x => ?_, funext fun x => ?_, funext fun x => ?_,
        funext fun x => ?_, funext fun x => ?_, funext fun x => ?_,
        funext fun x => ?_, funext fun x => ?_, funext fun x => ?_⟩ <;>
      simp [Vote.apply, Vote.reputation, Vote.voter_reputation, Vote.score,
        POST_SCORE, USER_REP, VOTER_REP, updFun] <;>
      split_ifs <;> (try simp [updFun]) <;> omega
  · refine ⟨funext fun x => ?_, funext fun x => ?_, funext fun x => ?_,
      funext fun x => ?_, funext fun x => ?_, funext fun x => ?_,
      funext fun x => ?_, funext fun x => ?_, funext fun x => ?_⟩ <;>
    simp [updFun] <;>
    split_ifs <;> (try simp [updFun]) <;> omega
  · refine ⟨funext fun x => ?_, funext fun x => ?_, funext fun x => ?_,
      funext fun x => ?_, funext fun x => ?_, funext fun x => ?_,
      funext fun x => ?_, funext fun x => ?_, funext fun x => ?_⟩ <;>
    simp [updFun] <;>
    split_ifs <;> (try simp [updFun]) <;> omega
  · refine ⟨funext fun x => ?_, funext fun x => ?_, funext fun x => ?_,
      funext fun x => ?_, funext fun x => ?_, funext fun x => ?_,
      funext fun x => ?_, funext fun x => ?_, funext fun x => ?_⟩ <;>
    simp [updFun] <;>
    split_ifs <;> (try simp [updFun]) <;> omega
  · refine ⟨funext fun x => ?_, funext fun x => ?_, funext fun x => ?_,
      funext fun x => ?_, funext fun x => ?_, funext fun x => ?_,
      funext fun x => ?_, funext fun x => ?_, funext fun x => ?_⟩ <;>
    simp [updFun] <;>
    split_ifs <;> (try simp [updFun]) <;> omega

/-- Claim C6: `Vote.apply(+1)` mutates the counters exactly per the scoring
table: the post's score changes by the table's post-score delta at the voted
post only, each user's profile score changes by the author delta when they
authored the post plus the voter delta when they cast the vote, and no other
counter (badge tiers, comment/revision/answer counts, badge award counts)
changes. -/
theorem vote_apply_matches_scoring_table (v : Vote) (s : State) :
    ((v.apply 1 s).postScore = fun p =>
        s.postScore p + (if p = v.post then specPostScoreDelta v.type else 0))
    ∧ ((v.apply 1 s).profileScore = fun u =>
        s.profileScore u
          + (if u = s.postAuthor v.post then specAuthorRepDelta v.type else 0)
          + (if u = v.author then specVoterRepDelta v.type else 0))
    ∧ (v.apply 1 s).profileBronze = s.profileBronze
    ∧ (v.apply 1 s).profileSilver = s.profileSilver
    ∧ (v.apply 1 s).profileGold = s.profileGold
    ∧ (v.apply 1 s).postCommentCount = s.postCommentCount
    ∧ (v.apply 1 s).postRevisionCount = s.postRevisionCount
    ∧ (v.apply 1 s).questionAnswerCount = s.questionAnswerCount
    ∧ (v.apply 1 s).badgeCount = s.badgeCount := by
  obtain ⟨a, p, t⟩ := v
  cases t <;>
    refine ⟨funext fun x => ?_, funext fun u => ?_, rfl, rfl, rfl, rfl, rfl, rfl, rfl⟩ <;>
    simp [Vote.apply, Vote.reputation, Vote.voter_reputation, Vote.score,
      POST_SCORE, USER_REP, VOTER_REP,
      updFun, specPostScoreDelta, specAuthorRepDelta, specVoterRepDelta] <;>
    split_ifs <;> (try simp [updFun]) <;> omega

/-- Every Python single-character split yields at least one piece. -/
lemma splitCharAux_ne_nil (sep : Char) (l : List Char) : splitCharAux sep l ≠ [] := by
  induction l with
  | nil => simp [splitCharAux]
  | cons c rest ih =>
    simp only [splitCharAux]
    split
    · simp
    · cases hsp : splitCharAux sep rest <;> simp

/-- `get_tags` never returns an empty list. -/
lemma get_tags_ne_nil (ts : TagState) : get_tags ts ≠ [] := by
  unfold get_tags pySplit
  intro h
  rw [List.map_eq_nil_iff] at h
  exact splitCharAux_ne_nil _ _ h

/-- Claim C1 (evaluation of the signal wiring): a durable creation
(`post_save` with `created=True`, `raw=False`) runs `apply(+1)` exactly once,
a plain re-save and a fixture import run no apply; but `post_delete` is
connected to `apply_instance` — not `unapply_instance`, which the source
never connects — and the delete dispatch does not supply the `created`/`raw`
arguments `apply_instance` requires, so deletion raises `TypeError` and
never runs `apply(-1)`. -/
theorem delete_signal_never_runs_unapply :
    saveDispatch true false = [DispatchResult.applied 1]
    ∧ saveDispatch false false = [DispatchResult.noop]
    ∧ saveDispatch true true = [DispatchResult.noop]
    ∧ postDeleteReceivers = [Receiver.applyInstance]
    ∧ deleteDispatch = [DispatchResult.typeError]
    ∧ deleteDispatch ≠ [DispatchResult.applied (-1)] := by
  decide

/-- Claim C3 (evaluation of the code at a two-answer question): accepting
answer 1 (post 11) and then answer 2 (post 12) of the same question leaves
*both* answers accepted, and the +15 accept reputation of answer 1's author
is not reversed: `Vote.apply` never clears a previously accepted answer. -/
theorem accepting_second_answer_keeps_first_accepted :
    (Vote.apply ⟨5, 11, VoteType.accept⟩ 1 twoAnswerState).answerAccepted 1 = true
    ∧ (Vote.apply ⟨5, 11, VoteType.accept⟩ 1 twoAnswerState).questionAnswerAccepted 0 = true
    ∧ (Vote.apply ⟨5, 12, VoteType.accept⟩ 1
        (Vote.apply ⟨5, 11, VoteType.accept⟩ 1 twoAnswerState)).answerAccepted 2 = true
    ∧ (Vote.apply ⟨5, 12, VoteType.accept⟩ 1
        (Vote.apply ⟨5, 11, VoteType.accept⟩ 1 twoAnswerState)).answerAccepted 1 = true
    ∧ (Vote.apply ⟨5, 12, VoteType.accept⟩ 1
        (Vote.apply ⟨5, 11, VoteType.accept⟩ 1 twoAnswerState)).profileScore 1 = 15 := by
  decide

/-- Claim C5 (evaluation of `current_revision`): on a post whose revisions
are dated 1 and 2, `order_by('date')[0]` returns the revision dated 1 — the
*oldest* — even though a revision with strictly greater date exists, against
the method's own docstring ("the most recent revision"). -/
theorem current_revision_returns_oldest :
    current_revision [newRevision, oldRevision] = some oldRevision
    ∧ oldRevision.date < newRevision.date := by
  decide

/-- Claim C7 (evaluation of the award path): granting the same
`unique=True` badge twice to the same user is not rejected; the second
creation applies again, leaving the badge's award count and the user's tier
counter at 2 — `Badge.unique` ("Unique badges may be earned only once") is
enforced nowhere. -/
theorem unique_badge_granted_twice_counts_twice :
    uniqueBadgeState.badgeUnique 0 = true
    ∧ (createAward ⟨0, 5⟩ uniqueBadgeState).badgeCount 0 = 1
    ∧ (createAward ⟨0, 5⟩ uniqueBadgeState).profileBronze 5 = 1
    ∧ (createAward ⟨0, 5⟩ (createAward ⟨0, 5⟩ uniqueBadgeState)).badgeCount 0 = 2
    ∧ (createAward ⟨0, 5⟩ (createAward ⟨0, 5⟩ uniqueBadgeState)).profileBronze 5 = 2 := by
  decide

/-- Claim C8: `castVote` fails with `InvalidActor` for an anonymous user and
for a non-anonymous user creates the Vote row
`Vote(author=user, type=vote_type, post=post)`, whose creation triggers
`apply(+1)` on the store. -/
theorem castVote_rejects_anonymous_and_applies_on_create
    (user : UserR) (post : Nat) (t : VoteType) (s : State) :
    (user.is_anonymous = true → castVote user post t s = .error .invalidActor)
    ∧ (user.is_anonymous = false →
        castVote user post t s =
          .ok (⟨user.id, post, t⟩, Vote.apply ⟨user.id, post, t⟩ 1 s)) := by
  obtain ⟨uid, anon⟩ := user
  cases anon <;>
    simp [castVote, add_vote, createVote, apply_instance, postSaveArgs]

/-- Witness for C8 on concrete users: user 3 anonymous, user 3 named. -/
theorem castVote_rejects_anonymous_witness :
    castVote ⟨3, true⟩ 7 VoteType.up zeroState = .error .invalidActor
    ∧ castVote ⟨3, false⟩ 7 VoteType.up zeroState =
        .ok (⟨3, 7, VoteType.up⟩, Vote.apply ⟨3, 7, VoteType.up⟩ 1 zeroState) :=
  ⟨(castVote_rejects_anonymous_and_applies_on_create ⟨3, true⟩ 7 VoteType.up zeroState).1 rfl,
   (castVote_rejects_anonymous_and_applies_on_create ⟨3, false⟩ 7 VoteType.up zeroState).2 rfl⟩

/-- Claim C9: `create_revision` treats an explicit empty-string argument for
`content`, `title` or `tag_string` exactly like an omitted argument — the
post's current value is kept, so an explicit empty argument can never clear
a non-empty field. -/
theorem create_revision_empty_equals_omitted (render : String → String)
    (p : PostFields) (ts : TagState) (c t g : Option String)
    (author : Option Nat) (date : Option Nat) (now : Nat) :
    create_revision render p ts (some "") t g author date now
      = create_revision render p ts none t g author date now
    ∧ create_revision render p ts c (some "") g author date now
      = create_revision render p ts c none g author date now
    ∧ create_revision render p ts c t (some "") author date now
      = create_revision render p ts c t none author date now := by
  refine ⟨?_, ?_, ?_⟩ <;> simp [create_revision, strOrDefault]

/-- Claim C10: `get_tags` splits on single spaces and never returns an empty
list; on a post whose stored tag string is empty it returns `[""]`, and
`set_tags` with the empty string fetches-or-creates a `Tag` row named `""`
and increments its count to 1, treating the empty name as a real tag. -/
theorem get_tags_empty_string_is_real_tag (ts : TagState)
    (h1 : ts.tag_string = "") (h2 : "" ∉ ts.postTagSet)
    (h3 : ts.tagRows "" = none) :
    (∀ ts2 : TagState, get_tags ts2 ≠ [])
    ∧ get_tags ts = [""]
    ∧ (set_tags ts "").tagRows "" = some 1 := by
  refine ⟨get_tags_ne_nil, ?_, ?_⟩
  · simp [get_tags, pySplit, splitCharAux, h1]
  · simp [set_tags, pySplit, splitCharAux, h2, h3]

/-- Witness for C10 at the fresh empty state. -/
theorem get_tags_empty_string_witness :
    (∀ ts2 : TagState, get_tags ts2 ≠ [])
    ∧ get_tags emptyTagState = [""]
    ∧ (set_tags emptyTagState "").tagRows "" = some 1 :=
  get_tags_empty_string_is_real_tag emptyTagState rfl (List.not_mem_nil "") rfl

/-- Claim C4: provided every tag currently on the post has a row with a
count of at least 1 (the tag-refcount invariant), `set_tags` changes the
stored counts exactly by the set difference between the old tag set and the
names split from the new string: a removed tag is decremented by 1 and stays
nonnegative, a newly added tag is fetched-or-created and incremented by 1,
and a tag in both sets — or in neither — ends with its count unchanged. -/
theorem set_tags_counts_by_set_difference (s : TagState) (ts : String)
    (h : ∀ t ∈ s.postTagSet, ∃ c, s.tagRows t = some c ∧ 1 ≤ c) :
    ∀ t : String,
      (t ∈ s.postTagSet ∧ t ∉ pySplit ts ' ' →
        ∃ c, s.tagRows t = some c ∧ (set_tags s ts).tagRows t = some (c - 1)
          ∧ 0 ≤ c - 1)
      ∧ (t ∉ s.postTagSet ∧ t ∈ pySplit ts ' ' →
        (set_tags s ts).tagRows t = some ((s.tagRows t).getD 0 + 1))
      ∧ (t ∈ s.postTagSet ∧ t ∈ pySplit ts ' ' →
        (set_tags s ts).tagRows t = s.tagRows t)
      ∧ (t ∉ s.postTagSet ∧ t ∉ pySplit ts ' ' →
        (set_tags s ts).tagRows t = s.tagRows t) := by
  intro t
  refine ⟨?_, ?_, ?_, ?_⟩
  · rintro ⟨h1, h2⟩
    obtain ⟨c, hc, hc1⟩ := h t h1
    exact ⟨c, hc, by simp [set_tags, h1, h2, hc], by omega⟩
  · rintro ⟨h1, h2⟩
    simp [set_tags, h1, h2]
  · rintro ⟨h1, h2⟩
    obtain ⟨c, hc, hc1⟩ := h t h1
    simp [set_tags, h1, h2, hc]
  · rintro ⟨h1, h2⟩
    simp [set_tags, h1, h2]

/-- Witness for C4: retagging the `"a b"` post to `"a c"` removes `b`
(2 → 1), adds `c` (created at 1), keeps `a` at 1 and leaves `z` without a
row. -/
theorem set_tags_counts_witness :
    (∃ c, abTagState.tagRows "b" = some c
      ∧ (set_tags abTagState "a c").tagRows "b" = some (c - 1) ∧ 0 ≤ c - 1)
    ∧ (set_tags abTagState "a c").tagRows "c"
        = some ((abTagState.tagRows "c").getD 0 + 1)
    ∧ (set_tags abTagState "a c").tagRows "a" = abTagState.tagRows "a"
    ∧ (set_tags abTagState "a c").tagRows "z" = abTagState.tagRows "z" := by
  have hinv : ∀ t ∈ abTagState.postTagSet,
      ∃ c, abTagState.tagRows t = some c ∧ 1 ≤ c := by
    intro t ht
    simp [abTagState] at ht
    rcases ht with rfl | rfl
    · exact ⟨1, rfl, le_refl 1⟩
    · exact ⟨2, rfl, by norm_num⟩
  refine ⟨?_, ?_, ?_, ?_⟩
  · exact (set_tags_counts_by_set_difference abTagState "a c" hinv "b").1
      ⟨by decide, by decide⟩
  · exact (set_tags_counts_by_set_difference abTagState "a c" hinv "c").2.1
      ⟨by decide, by decide⟩
  · exact (set_tags_counts_by_set_difference abTagState "a c" hinv "a").2.2.1
      ⟨by decide, by decide⟩
  · exact (set_tags_counts_by_set_difference abTagState "a c" hinv "z").2.2.2
      ⟨by decide, by decide⟩

end Biostar
